import Mathlib

/-!
# Verification of the `opencensus-rs` trace core

A shallow embedding, in Lean 4, of the parts of the `trace` crate of
`johnchildren/opencensus-rs` that carry real invariants:

* identifiers and span contexts (`src/trace/src/basetypes.rs`, `trace.rs`),
* the binary propagation codec (`src/trace/src/propagation.rs`),
* the probability sampler (`src/trace/src/sampling.rs`),
* the span ring buffer (`src/trace/src/spanbucket.rs`),
* the trace-state overlay (`src/trace/src/tracestate.rs`),
* the exporter registry (`src/trace/src/export.rs`),
* span start and end (`src/trace/src/trace.rs`).

Modelling conventions:

* Rust `u8`/`u32`/`u64` values are `Nat`s; truncating casts are written with
  an explicit `% 2^w`.
* `std::time::Instant` and `Duration` are `Nat` tick counts (nanoseconds).
* Fallible operations (Rust `Option`/`Result`) become `Option`/`Except`;
  a Rust panic (out-of-bounds slice index) is modelled as `none`.
* Shared-memory cells (`Arc<RwLock<_>>`, `Once`, the `lazy_static`
  registries) are modelled by explicit state passing: a function that
  mutates a registry takes the registry value and returns the new one.
* `Arc` pointer identity (used by the exporter registry) is modelled by a
  numeric identity token.
-/

namespace Opencensus

/-! ## Base types (`basetypes.rs`, `trace.rs`) -/

/-- `TraceID` is a 16-byte identifier for a set of spans
(`TraceID(pub [u8; 16])`).  The fixed-size Rust array becomes a byte list;
the length-16 invariant that the Rust type enforces appears as an explicit
hypothesis in the theorems that need it. -/
abbrev TraceID := List Nat

/-- `SpanID` is an 8-byte identifier for a single span
(`SpanID(pub [u8; 8])`), a byte list like `TraceID`. -/
abbrev SpanID := List Nat

/-- `Default` for `TraceID`: 16 zero bytes. -/
def TraceID.default : TraceID := List.replicate 16 0

/-- `Default` for `SpanID`: 8 zero bytes. -/
def SpanID.default : SpanID := List.replicate 8 0

/-- `TraceOptions(pub u32)`: a 32-bit flag word, bit 0 = sampled. -/
abbrev TraceOptions := Nat

/-- `TraceOptions::is_sampled`: `self.0 & 1 == 1`. -/
def TraceOptions.is_sampled (o : TraceOptions) : Bool := o &&& 1 == 1

/-! ## Tracestate (`tracestate.rs`)

`Key` and `Value` are newtypes over `String`; their regex validation
(`Key::try_new` / `Value::try_new`) is not needed by any claim and is not
modelled.  `Tracestate(BTreeMap<Key, Value>)` is modelled as the list of the
map's entries in strictly ascending key order, which is exactly what the
`BTreeMap` iterator produces. -/

/-- One `Tracestate` entry: `pub type Entry = (Key, Value);`. -/
abbrev TracestateEntry := String × String

/-- The `tracestate::Error` enum. -/
inductive TracestateError where
  | MaxKeyValuePairsExceeded : TracestateError
  | InvalidEntry : TracestateEntry → TracestateError
  | DuplicateKey : String → TracestateError
deriving DecidableEq

instance {ε α : Type} [DecidableEq ε] [DecidableEq α] : DecidableEq (Except ε α)
  | .ok a, .ok b => decidable_of_iff (a = b) (by simp)
  | .error a, .error b => decidable_of_iff (a = b) (by simp)
  | .ok _, .error _ => isFalse (by simp)
  | .error _, .ok _ => isFalse (by simp)

/-- `Tracestate(BTreeMap<Key, Value>)`, as its ascending-key entry list. -/
abbrev Tracestate := List (String × String)

/-- `MAX_KEY_VALUE_PAIRS: usize = 32`. -/
def MAX_KEY_VALUE_PAIRS : Nat := 32

/-- Insertion into the ascending-key entry list of a `BTreeMap<Key, Value>`:
an existing key's value is replaced in place, a new key is placed at its
sorted position. -/
def btreeInsert : List (String × String) → String → String → List (String × String)
  | [], k, v => [(k, v)]
  | (k', v') :: rest, k, v =>
    if k < k' then (k, v) :: (k', v') :: rest
    else if k = k' then (k, v) :: rest
    else (k', v') :: btreeInsert rest k v

/-- `contains_duplciate_key` (source spelling): returns the first key of
`entries` that already occurred earlier in `entries`. -/
def contains_duplciate_key (entries : List (String × String)) : Option String :=
  go [] entries
where
  go : List String → List (String × String) → Option String
    | _, [] => none
    | seen, (k, _) :: rest => if seen.contains k then some k else go (k :: seen) rest

/-- `Tracestate::try_new(parent, entries)`:
empty call yields the empty state; a duplicate key inside `entries` fails;
otherwise the parent's map is extended with `entries` (`Tracestate::add`
collects `self.0.iter().chain(entries)` into a fresh `BTreeMap`, so a later
entry overwrites an earlier one) and the result is rejected when it exceeds
`MAX_KEY_VALUE_PAIRS` keys. -/
def Tracestate.try_new (parent : Option Tracestate) (entries : List (String × String)) :
    Except TracestateError Tracestate :=
  if parent.isNone ∧ entries.isEmpty then .ok []
  else
    match contains_duplciate_key entries with
    | some duplicate => .error (.DuplicateKey duplicate)
    | none =>
      let base : List (String × String) := match parent with
        | some p => p
        | none => []
      let combined := entries.foldl (fun m kv => btreeInsert m kv.1 kv.2) base
      if combined.length > MAX_KEY_VALUE_PAIRS then .error .MaxKeyValuePairsExceeded
      else .ok combined

/-- `Tracestate::entries`: the `BTreeMap` iterator, i.e. the entry list in
ascending key order. -/
def Tracestate.entries (t : Tracestate) : List (String × String) := t

/-! ## SpanContext (`trace.rs`) -/

/-- `SpanContext`: the state that must propagate across process boundaries. -/
structure SpanContext where
  trace_id : TraceID
  span_id : SpanID
  trace_options : TraceOptions
  trace_state : Option Tracestate
deriving DecidableEq

/-- `SpanContext::default()` (all-zero ids, zero options, no trace state). -/
def SpanContext.default : SpanContext :=
  { trace_id := TraceID.default, span_id := SpanID.default
    trace_options := 0, trace_state := none }

/-- `SpanContext::is_sampled`. -/
def SpanContext.is_sampled (sc : SpanContext) : Bool := sc.trace_options.is_sampled

/-- `SpanContext::set_is_sampled`: `trace_options.0 |= 1` / `&= !1`
(`!1` on `u32` is `0xFFFF_FFFE`). -/
def SpanContext.set_is_sampled (sc : SpanContext) (sampled : Bool) : SpanContext :=
  if sampled then { sc with trace_options := sc.trace_options ||| 1 }
  else { sc with trace_options := sc.trace_options &&& 0xFFFFFFFE }

/-! ## Propagation codec (`propagation.rs`) -/

/-- `to_binary(sc)`: a 29-byte buffer.  The Rust code allocates 29 zero bytes
and then writes `buf[2..18] = trace_id`, `buf[18] = 1`,
`buf[19..27] = span_id`, `buf[27] = 2`, `buf[28] = trace_options.0 as u8`;
bytes 0 (version) and 1 (trace-id field tag) keep their initial 0.  With the
id lengths fixed by their types this is exactly the list below; the `u8` cast
of the `u32` options word is `% 256`. -/
def to_binary (sc : SpanContext) : List Nat :=
  0 :: 0 :: sc.trace_id ++ 1 :: sc.span_id ++ 2 :: [sc.trace_options % 256]

/-- `from_binary(buf)`: reject an empty buffer or a nonzero version byte,
then demand tag 0 + 16 trace-id bytes, tag 1 + 8 span-id bytes, and
tag 2 + 1 options byte, consuming the buffer left to right; any failed check
returns `none`.  Each Rust stage checks `b.len() >= tag + payload` before
reading `b[0]`, mirrored here by a conjunction. -/
def from_binary (buf : List Nat) : Option SpanContext :=
  match buf with
  | [] => none
  | v :: b =>
    if v ≠ 0 then none
    else
      if 17 ≤ b.length ∧ b.getD 0 1 = 0 then
        let trace_id : TraceID := (b.drop 1).take 16
        let b2 := b.drop 17
        if 9 ≤ b2.length ∧ b2.getD 0 0 = 1 then
          let span_id : SpanID := (b2.drop 1).take 8
          let b3 := b2.drop 9
          if 2 ≤ b3.length ∧ b3.getD 0 0 = 2 then
            some { trace_id := trace_id, span_id := span_id
                   trace_options := b3.getD 1 0, trace_state := none }
          else none
        else none
      else none

/-! ## Sampling (`sampling.rs`)

A `Sampler` is `Arc<dyn Fn(SamplingParameters) -> SamplingDecision>`; here it
is a plain Lean function.  The only floating-point step in the crate is
`(fraction * ((1u64) << 63) as f64).floor() as u64` in `probability_sampler`:
since `2^63` is a power of two, an `f64` multiplication by it is exact, so
for every representable `fraction` the computed bound is the mathematical
`⌊fraction * 2^63⌋`.  The fraction is therefore modelled as a rational. -/

/-- `SamplingParameters`: the values passed to a `Sampler`. -/
structure SamplingParameters where
  parent_context : Option SpanContext
  trace_id : TraceID
  span_id : SpanID
  name : String
  has_remote_parent : Bool

/-- `SamplingDecision`: the result of a sampling decision. -/
structure SamplingDecision where
  sample : Bool
deriving DecidableEq

/-- `Sampler`: a decision function over `SamplingParameters`. -/
abbrev Sampler := SamplingParameters → SamplingDecision

/-- `always_sample()`: samples every trace. -/
def always_sample : Sampler := fun _ => ⟨true⟩

/-- `never_sample()`: samples no trace. -/
def never_sample : Sampler := fun _ => ⟨false⟩

/-- `BigEndian::read_u64(&trace_id.0[0..8])`: the first 8 bytes of a trace
id as a big-endian unsigned 64-bit integer. -/
def read_u64_be (bytes : List Nat) : Nat :=
  (bytes.take 8).foldl (fun acc b => acc * 256 + b) 0

/-- `probability_sampler(fraction)`: a negative fraction is clamped to 0, a
fraction ≥ 1 degrades to `always_sample`; otherwise the bound
`⌊fraction * 2^63⌋` is fixed at construction and the decision samples when
the parent context is sampled, or else when the trace id's first 8 bytes,
read big-endian and shifted right by one, are below the bound. -/
def probability_sampler (fraction : ℚ) : Sampler :=
  let fraction := if fraction < 0 then 0 else fraction
  if 1 ≤ fraction then always_sample
  else
    let trace_id_upper_bound : Nat := (⌊fraction * 2 ^ 63⌋).toNat
    fun sampling_params =>
      let parent_sampled := match sampling_params.parent_context with
        | some parent_context => parent_context.is_sampled
        | none => false
      if parent_sampled then ⟨true⟩
      else
        let x := read_u64_be sampling_params.trace_id >>> 1
        ⟨decide (x < trace_id_upper_bound)⟩

/-! ## Exporter registry (`export.rs`)

The registry is a process-wide `RwLock<Vec<Arc<dyn Exporter>>>`; exporters
are compared by `Arc::ptr_eq`.  The registry is modelled as the list of the
exporters' pointer identities (numeric tokens) and each operation maps the
registry value before the call to the value after it. -/

/-- `register_exporter(e)`: scan for an already-registered `Arc` pointing to
the same exporter and return early if found, otherwise push. -/
def register_exporter (exporters : List Nat) (e : Nat) : List Nat :=
  if exporters.contains e then exporters else exporters ++ [e]

/-- `unregister_exporter(e)`: replace the registry by
`exporters.iter().filter(|exporter| Arc::ptr_eq(exporter, e))` — note the
filter keeps exactly the elements equal to `e`. -/
def unregister_exporter (exporters : List Nat) (e : Nat) : List Nat :=
  exporters.filter (fun exporter => exporter == e)

/-! ## SpanData and friends (`basetypes.rs`, `export.rs`, `status_codes.rs`) -/

/-- gRPC-style status codes (`status_codes.rs`). -/
inductive StatusCode where
  | OK | Cancelled | Unknown | InvalidArgument | DeadlineExceeded | NotFound
  | AlreadyExists | PermissionDenied | ResourceExhausted | FailedPrecondition
  | Aborted | OutOfRange | Unimplemented | Internal | Unavailable | DataLoss
  | Unauthenticated
deriving DecidableEq

/-- `AttributeValue`: a bool, an `i64`, or a string. -/
inductive AttributeValue where
  | BoolAttribute : Bool → AttributeValue
  | Int64Attribute : Int → AttributeValue
  | StringAttribute : String → AttributeValue
deriving DecidableEq

/-- `Attributes = HashMap<String, AttributeValue>`, as its entry list. -/
abbrev Attributes := List (String × AttributeValue)

/-- `Status`: a status code plus a message. -/
structure Status where
  code : StatusCode
  message : String
deriving DecidableEq

/-- `LinkType`. -/
inductive LinkType where
  | Unspecified | Child | Parent
deriving DecidableEq

/-- `Link`: a reference from one span to another. -/
structure Link where
  trace_id : TraceID
  span_id : SpanID
  _type : LinkType
  attributes : Attributes
deriving DecidableEq

/-- `MessageEventType`. -/
inductive MessageEventType where
  | Unspecified | Sent | Recv
deriving DecidableEq

/-- `MessageEvent`: a message sent or received on the network. -/
structure MessageEvent where
  time : Nat
  event_type : MessageEventType
  message_id : Int
  uncompressed_byte_size : Int
  compressed_byte_size : Int
deriving DecidableEq

/-- `Annotation`: a text annotation with attributes and a timestamp. -/
structure Annotation where
  time : Nat
  message : String
  attributes : Attributes
deriving DecidableEq

/-- `SpanKind`. -/
inductive SpanKind where
  | Unspecified | Server | Client
deriving DecidableEq

/-- `SpanData`: all the information collected by a `Span`
(`Instant`s are `Nat` ticks). -/
structure SpanData where
  span_context : SpanContext
  parent_span_id : Option SpanID
  span_kind : SpanKind
  name : String
  start_time : Nat
  end_time : Option Nat
  attributes : Attributes
  annotations : List Annotation
  message_events : List MessageEvent
  status : Option Status
  links : List Link
  has_remote_parent : Bool
deriving DecidableEq

/-! ## Span bucket (`spanbucket.rs`) -/

/-- `SAMPLE_PERIOD = Duration::from_secs(1)` in nanosecond ticks. -/
def SAMPLE_PERIOD : Nat := 1000000000

/-- `Bucket`: `next_time` watermark, circular `buffer` of spans, write
cursor `next_index`, and the wrap-around flag `overflow`. -/
structure Bucket where
  next_time : Nat
  buffer : List SpanData
  next_index : Nat
  overflow : Bool
deriving DecidableEq

/-- `Bucket::new(buffer_size)`.  `Vec::with_capacity(buffer_size)` only
reserves memory: the vector it returns has length 0, so `buffer` is the
empty list whatever `buffer_size` was requested.  `next_time` is
`Instant::now()`, passed in as `now`. -/
def Bucket.new (now : Nat) (buffer_size : Nat) : Bucket :=
  { next_time := now, buffer := [], next_index := 0, overflow := false }

/-- `Bucket::add(s)`: a record without an end time is ignored; an empty
buffer rejects the record; otherwise the record is written at the cursor
(`self.buffer[self.next_index] = s`, a panic — `none` — if the cursor is out
of bounds), the watermark advances to `end_time + SAMPLE_PERIOD`, and a
cursor that reaches the end wraps to 0 setting `overflow`. -/
def Bucket.add (b : Bucket) (s : SpanData) : Option Bucket :=
  match s.end_time with
  | none => some b
  | some end_time =>
    if b.buffer.isEmpty then some b
    else if b.next_index < b.buffer.length then
      let buffer := b.buffer.set b.next_index s
      let next_index := b.next_index + 1
      if next_index = buffer.length then
        some { next_time := end_time + SAMPLE_PERIOD, buffer := buffer
               next_index := 0, overflow := true }
      else
        some { next_time := end_time + SAMPLE_PERIOD, buffer := buffer
               next_index := next_index, overflow := b.overflow }
    else none

/-- `Bucket::size`: buffer length once wrapped, cursor position before. -/
def Bucket.size (b : Bucket) : Nat :=
  if b.overflow then b.buffer.length else b.next_index

/-- `Bucket::span(idx)`: logical-to-physical index mapping; an out-of-range
buffer access is a panic, hence `none`. -/
def Bucket.span (b : Bucket) (idx : Nat) : Option SpanData :=
  if b.overflow then b.buffer.get? idx
  else if idx < b.buffer.length - b.next_index then b.buffer.get? (b.next_index + idx)
  else b.buffer.get? (b.next_index + idx - b.buffer.length)

/-- `Bucket::resize(new_size)`: rebuild the buffer from `Bucket::span`
reads; growing keeps cursor = old size and clears `overflow`, otherwise the
most recent `new_size` logical entries are kept with cursor 0 and `overflow`
set.  A panic inside any `span` read is propagated as `none`. -/
def Bucket.resize (b : Bucket) (new_size : Nat) : Option Bucket :=
  let current_size := b.size
  if current_size < new_size then
    match (List.range new_size).mapM (fun i => b.span i) with
    | some buffer =>
      some { b with buffer := buffer, next_index := current_size, overflow := false }
    | none => none
  else
    match (List.range new_size).mapM (fun i => b.span (i + current_size - new_size)) with
    | some buffer =>
      some { b with buffer := buffer, next_index := 0, overflow := true }
    | none => none

/-! ## Span lifecycle (`trace.rs`)

`Span` holds `data: Option<Arc<RwLock<SpanData>>>` (shared mutable record,
present only when recording), the `SpanContext`, an optional span store
handle, and the `end_once: Arc<Once>` latch.  The `Arc<RwLock<_>>` cell is
modelled by the record value itself, the `Once` by the boolean `ended`
(initially `false`; `call_once` runs its body only when the latch is still
`false` and then sets it), and the store handle by `Option Unit` since only
its presence matters to the claims. -/

/-- The `Span` struct. -/
structure Span where
  data : Option SpanData
  span_context : SpanContext
  span_store : Option Unit
  ended : Bool
deriving DecidableEq

/-- `StartOptions`: optional per-call sampler override plus the span kind. -/
structure StartOptions where
  sampler : Option Sampler
  span_kind : SpanKind

/-- The global `Config`: the default sampler plus the id generator.  The
generator is a seeded PRNG behind a mutex; the ids it will hand out for the
span being started are passed in as `new_trace_id` / `new_span_id`. -/
structure Config where
  default_sampler : Sampler
  new_trace_id : TraceID
  new_span_id : SpanID

/-- `start_span_internal(name, parent, remote_parent, o)`:
clone the parent context (or default), generate a trace id when parentless,
always generate a span id; consult a sampler (the override if supplied, else
the config default) only when there is no parent, the parent is remote, or
an override was supplied — a local child keeps the parent's sampled bit
untouched; an unsampled result is a bare context carrier, a sampled one
allocates the mutable `SpanData` record (`start_time = now`). -/
def start_span_internal (cfg : Config) (now : Nat) (name : String)
    (parent : Option SpanContext) (remote_parent : Bool) (o : StartOptions) : Span :=
  let sc0 := match parent with
    | some p => p
    | none => SpanContext.default
  let sc1 := if parent.isNone then { sc0 with trace_id := cfg.new_trace_id } else sc0
  let sc2 := { sc1 with span_id := cfg.new_span_id }
  let span_context :=
    if parent.isNone || remote_parent || o.sampler.isSome then
      let sampler := match o.sampler with
        | some s => s
        | none => cfg.default_sampler
      sc2.set_is_sampled (sampler
        { parent_context := parent, trace_id := sc2.trace_id, span_id := sc2.span_id
          name := name, has_remote_parent := remote_parent }).sample
    else sc2
  if !span_context.is_sampled then
    { data := none, span_context := span_context, span_store := none, ended := false }
  else
    { data := some
        { span_context := span_context, parent_span_id := parent.map (·.span_id)
          span_kind := o.span_kind, name := name, start_time := now, end_time := none
          attributes := [], annotations := [], message_events := [], status := none
          links := [], has_remote_parent := remote_parent }
      span_context := span_context, span_store := none, ended := false }

/-- The observable world `Span::end` touches: the exporter registry (read
under its lock), the stream of `export_span` invocations, and the stream of
span-store insertions. -/
structure EndWorld where
  exporters : List Nat
  exports : List (Nat × SpanData)
  store_inserts : List SpanData
deriving DecidableEq

/-- `Span::end()`: return unchanged for a non-recording span; otherwise the
`end_once` latch admits only the first call, whose body snapshots the
record, stamps `end_time = now`, sends the snapshot to every registered
exporter when the span is sampled and an exporter exists, and then forwards
it to the span store when one is attached. -/
def Span.end (span : Span) (w : EndWorld) (now : Nat) : Span × EndWorld :=
  if span.data.isNone then (span, w)
  else if span.ended then (span, w)
  else
    let span' := { span with ended := true }
    let must_export := span.span_context.is_sampled && !w.exporters.isEmpty
    if span.span_store.isSome || must_export then
      match span.data with
      | some data =>
        let span_data := { data with end_time := some now }
        let w1 := if must_export then
            { w with exports := w.exports ++ w.exporters.map (fun e => (e, span_data)) }
          else w
        let w2 := if span.span_store.isSome then
            { w1 with store_inserts := w1.store_inserts ++ [span_data] }
          else w1
        (span', w2)
      | none => (span', w)
    else (span', w)

/-! ## Test fixtures -/

/-- A concrete completed-span record with the given end time, used to
exercise `Bucket.add`. -/
def testSpanData (end_time : Option Nat) : SpanData :=
  { span_context := SpanContext.default, parent_span_id := none
    span_kind := .Unspecified, name := "test", start_time := 0, end_time := end_time
    attributes := [], annotations := [], message_events := [], status := none
    links := [], has_remote_parent := false }

/-- Eight chronologically increasing completed records (end times 1..8). -/
def eightRecords : List SpanData :=
  (List.range 8).map (fun i => testSpanData (some (i + 1)))

/-- Feeding a list of records to a bucket through `Bucket.add`. -/
def Bucket.addAll (b : Bucket) (records : List SpanData) : Option Bucket :=
  records.foldlM Bucket.add b

/-! ## Claims -/

/-- **C1.** The claim says a `Bucket` created with requested capacity `n > 0`
accepts every record that has an end time.  The code does not:
`Bucket::new(5)` builds its buffer with `Vec::with_capacity(5)`, which has
length 0, so `add`'s `self.buffer.is_empty()` guard fires and silently
rejects every record, whatever the requested capacity.  This theorem
evaluates the code at the failing input: a capacity-5 bucket rejects a
record whose end time is set (the bucket is returned unchanged and its
logical size stays 0). -/
theorem bucket_add_rejects_despite_positive_capacity :
    Bucket.add (Bucket.new 0 5) (testSpanData (some 7)) = some (Bucket.new 0 5) ∧
    (Bucket.new 0 5).size = 0 ∧ (Bucket.new 0 5).buffer = [] := by
  constructor
  · rfl
  · constructor <;> rfl

/-- **C5.** The claim's scenario — fill a capacity-5 bucket with 8
chronologically increasing records, resize to 3, and find the 3 newest in
order — fails on the code: all 8 `add` calls are silently rejected (the
`Vec::with_capacity` buffer has length 0), so the bucket is still empty, and
`resize(3)` then panics (`Bucket::span(0)` indexes `buffer[0]` of an empty
buffer), modelled as `none`. -/
theorem bucket_fill_then_resize_diverges :
    Bucket.addAll (Bucket.new 0 5) eightRecords = some (Bucket.new 0 5) ∧
    (Bucket.new 0 5).resize 3 = none := by
  constructor
  · rfl
  · rfl

/-- A decode of a well-formed frame: version byte 0, tag 0, a 16-byte trace
id, tag 1, an 8-byte span id, tag 2, an options byte, and arbitrary trailing
bytes. -/
theorem from_binary_of_wellformed (t s : List Nat) (ht : t.length = 16) (hs : s.length = 8)
    (o : Nat) (rest : List Nat) :
    from_binary (0 :: 0 :: t ++ 1 :: s ++ 2 :: o :: rest) =
      some { trace_id := t, span_id := s, trace_options := o, trace_state := none } := by
  simp only [List.cons_append, List.append_assoc]
  rw [from_binary]
  simp only [List.drop_succ_cons, List.drop_zero, List.take_left' ht, List.drop_left' ht,
    List.take_left' hs, List.drop_left' hs, List.getD_cons_zero, List.getD_cons_succ,
    List.length_cons, List.length_append, ht, hs, and_true]
  split_ifs with h0 h1 h2 h3 <;> first | rfl | omega

/-- `from_binary` reads at most the first 29 bytes of a long enough buffer:
appending anything to a buffer of length ≥ 29 does not change the result. -/
theorem from_binary_append_stable (buf rest : List Nat) (hlen : 29 ≤ buf.length) :
    from_binary (buf ++ rest) = from_binary buf := by
  cases buf with
  | nil => simp at hlen
  | cons v b =>
    have hb : 28 ≤ b.length := by simp at hlen; omega
    simp only [List.cons_append]
    rw [from_binary, from_binary]
    have hgd0 : (b ++ rest).getD 0 1 = b.getD 0 1 := List.getD_append _ _ _ _ (by omega)
    have hd1 : (b ++ rest).drop 1 = b.drop 1 ++ rest := List.drop_append_of_le_length (by omega)
    have hd17 : (b ++ rest).drop 17 = b.drop 17 ++ rest := List.drop_append_of_le_length (by omega)
    have ht16 : (b.drop 1 ++ rest).take 16 = (b.drop 1).take 16 :=
      List.take_append_of_le_length (by simp [List.length_drop]; omega)
    have hgd17 : (b.drop 17 ++ rest).getD 0 0 = (b.drop 17).getD 0 0 :=
      List.getD_append _ _ _ _ (by simp [List.length_drop]; omega)
    have hd17_9 : (b.drop 17 ++ rest).drop 9 = (b.drop 17).drop 9 ++ rest :=
      List.drop_append_of_le_length (by simp [List.length_drop]; omega)
    have hd17_1 : (b.drop 17 ++ rest).drop 1 = (b.drop 17).drop 1 ++ rest :=
      List.drop_append_of_le_length (by simp [List.length_drop]; omega)
    have ht8 : ((b.drop 17).drop 1 ++ rest).take 8 = ((b.drop 17).drop 1).take 8 :=
      List.take_append_of_le_length (by simp [List.length_drop]; omega)
    have hgd26 : ((b.drop 17).drop 9 ++ rest).getD 0 0 = ((b.drop 17).drop 9).getD 0 0 :=
      List.getD_append _ _ _ _ (by simp [List.length_drop]; omega)
    have hgd26' : ((b.drop 17).drop 9 ++ rest).getD 1 0 = ((b.drop 17).drop 9).getD 1 0 :=
      List.getD_append _ _ _ _ (by simp [List.length_drop]; omega)
    simp only [hgd0, hd1, hd17, ht16, hgd17, hd17_9, hd17_1, ht8, hgd26, hgd26',
      List.length_append, List.length_drop]
    split_ifs with h0 h1 h2 h3 h4 h5 h6 <;> first | rfl | omega

/-- The span context used by the crate's own propagation tests. -/
def testSpanContext : SpanContext :=
  { trace_id := [64, 65, 66, 67, 68, 69, 70, 71, 72, 73, 74, 75, 76, 77, 78, 79]
    span_id := [97, 98, 99, 100, 101, 102, 103, 104]
    trace_options := 1, trace_state := none }

/-- **C4.** For every `SpanContext` (with the 16-byte / 8-byte id lengths the
Rust types enforce) whose `TraceOptions` word fits in one byte, `to_binary`
emits exactly 29 bytes — version byte 0 at index 0 and field tags 0, 1, 2 at
indices 1, 18 and 27 — and `from_binary` decodes that buffer back to the
same trace id, span id and trace options with `trace_state = None`. -/
theorem to_binary_from_binary_roundtrip (sc : SpanContext)
    (ht : sc.trace_id.length = 16) (hs : sc.span_id.length = 8)
    (hopt : sc.trace_options < 256) :
    (to_binary sc).length = 29 ∧
    (to_binary sc).getD 0 9 = 0 ∧ (to_binary sc).getD 1 9 = 0 ∧
    (to_binary sc).getD 18 9 = 1 ∧ (to_binary sc).getD 27 9 = 2 ∧
    from_binary (to_binary sc) =
      some { trace_id := sc.trace_id, span_id := sc.span_id
             trace_options := sc.trace_options, trace_state := none } := by
  refine ⟨?_, rfl, rfl, ?_, ?_, ?_⟩
  · simp [to_binary, ht, hs]
  · simp only [to_binary, List.cons_append, List.append_assoc, List.getD_cons_succ]
    rw [List.getD_append_right _ _ _ _ (by omega), ht]
    rfl
  · simp only [to_binary, List.cons_append, List.append_assoc, List.getD_cons_succ]
    rw [List.getD_append_right _ _ _ _ (by omega), ht]
    simp only [List.getD_cons_succ]
    rw [List.getD_append_right _ _ _ _ (by omega), hs]
    rfl
  · rw [to_binary, from_binary_of_wellformed sc.trace_id sc.span_id ht hs
      (sc.trace_options % 256) [], Nat.mod_eq_of_lt hopt]

/-- Witness for C4: the round trip evaluated on the crate's own test
vector. -/
theorem to_binary_from_binary_roundtrip_witness :
    (to_binary testSpanContext).length = 29 ∧
    (to_binary testSpanContext).getD 0 9 = 0 ∧ (to_binary testSpanContext).getD 1 9 = 0 ∧
    (to_binary testSpanContext).getD 18 9 = 1 ∧ (to_binary testSpanContext).getD 27 9 = 2 ∧
    from_binary (to_binary testSpanContext) =
      some { trace_id := testSpanContext.trace_id, span_id := testSpanContext.span_id
             trace_options := testSpanContext.trace_options, trace_state := none } :=
  to_binary_from_binary_roundtrip testSpanContext rfl rfl (by decide)

/-- **C8.** `from_binary` returns `none` — producing no partial context —
for every input that is empty, has a nonzero version byte, or at any of the
three stages lacks the expected field tag (0, then 1, then 2) or the bytes
for the tag plus its 16-, 8- or 1-byte payload (total lengths 18, 27 and
29). -/
theorem from_binary_rejects_malformed (buf : List Nat)
    (h : buf = [] ∨ buf.getD 0 1 ≠ 0 ∨
      buf.length < 18 ∨ buf.getD 1 1 ≠ 0 ∨
      buf.length < 27 ∨ buf.getD 18 0 ≠ 1 ∨
      buf.length < 29 ∨ buf.getD 27 0 ≠ 2) :
    from_binary buf = none := by
  cases buf with
  | nil => rfl
  | cons v b =>
    rw [from_binary]
    dsimp only
    split_ifs with h0 h1 h2 h3 <;> try rfl
    exfalso
    have e0 : v = 0 := by simpa using h0
    have l1 : 17 ≤ b.length := h1.1
    have l2 : 9 ≤ b.length - 17 := by simpa [List.length_drop] using h2.1
    have l3 : 2 ≤ b.length - 17 - 9 := by simpa [List.length_drop] using h3.1
    have e18 : (List.drop 17 b).getD 0 0 = b.getD 17 0 := by
      simp [List.getD_eq_getElem?_getD, List.getElem?_drop]
    have e27 : (List.drop 9 (List.drop 17 b)).getD 0 0 = b.getD 26 0 := by
      simp [List.getD_eq_getElem?_getD, List.getElem?_drop]
    rcases h with h | h | h | h | h | h | h | h
    · simp at h
    · exact h (by simp [e0])
    · simp only [List.length_cons] at h; omega
    · exact h (by simpa using h1.2)
    · simp only [List.length_cons] at h; omega
    · exact h (by simpa [e18] using h2.2)
    · simp only [List.length_cons] at h; omega
    · exact h (by simpa [e27] using h3.2)

/-- Witness for C8: the crate's own negative test vectors — a wrong version
byte and a buffer missing the trace-id tag — decode to `none`. -/
theorem from_binary_rejects_malformed_witness :
    from_binary [1, 0, 64, 65, 66, 67, 68, 69, 70, 71, 72, 73, 74, 75, 76, 77, 78, 79,
      1, 97, 98, 99, 100, 101, 102, 103, 104, 2, 1] = none ∧
    from_binary [0, 1, 97, 98, 99, 100, 101, 102, 103, 104, 2, 1] = none :=
  ⟨from_binary_rejects_malformed _ (Or.inr (Or.inl (by decide))),
   from_binary_rejects_malformed _ (Or.inr (Or.inr (Or.inr (Or.inl (by decide)))))⟩

/-- **C10.** `from_binary` does not require its input to be exactly 29
bytes: whenever the first 29 bytes decode successfully, any trailing bytes
are ignored — the decode still succeeds and returns the same context as the
29-byte prefix alone. -/
theorem from_binary_ignores_trailing_bytes (buf rest : List Nat)
    (hlen : buf.length = 29) (hok : (from_binary buf).isSome) :
    (from_binary (buf ++ rest)).isSome ∧
    from_binary (buf ++ rest) = from_binary buf := by
  have hst := from_binary_append_stable buf rest (by omega)
  exact ⟨hst ▸ hok, hst⟩

/-- Witness for C10: the crate's valid 29-byte test vector with a trailing
byte appended still decodes, to the same context. -/
theorem from_binary_ignores_trailing_bytes_witness :
    (from_binary ([0, 0, 64, 65, 66, 67, 68, 69, 70, 71, 72, 73, 74, 75, 76, 77, 78, 79,
        1, 97, 98, 99, 100, 101, 102, 103, 104, 2, 1] ++ [255])).isSome ∧
    from_binary ([0, 0, 64, 65, 66, 67, 68, 69, 70, 71, 72, 73, 74, 75, 76, 77, 78, 79,
        1, 97, 98, 99, 100, 101, 102, 103, 104, 2, 1] ++ [255]) =
      from_binary [0, 0, 64, 65, 66, 67, 68, 69, 70, 71, 72, 73, 74, 75, 76, 77, 78, 79,
        1, 97, 98, 99, 100, 101, 102, 103, 104, 2, 1] :=
  from_binary_ignores_trailing_bytes _ _ rfl (by decide)

/-- **C2.** The claim says `Tracestate::entries()` enumerates pairs
most-recently-added/updated first, the overwritten key moving to the front.
The code stores the pairs in a `BTreeMap`, so enumeration is in ascending
key order: overwriting `"hello"` in a parent holding `"foo"` and `"hello"`
yields `entries() = [("foo","bar"), ("hello","baz")]` — the freshly updated
key `"hello"` comes out last, not first. -/
theorem tracestate_entries_are_key_ordered_not_mru :
    Tracestate.try_new none [("hello", "world"), ("foo", "bar")] =
      Except.ok [("foo", "bar"), ("hello", "world")] ∧
    Tracestate.try_new (some [("foo", "bar"), ("hello", "world")]) [("hello", "baz")] =
      Except.ok [("foo", "bar"), ("hello", "baz")] ∧
    Tracestate.entries [("foo", "bar"), ("hello", "baz")] ≠
      [("hello", "baz"), ("foo", "bar")] := by
  refine ⟨?_, ?_, by decide⟩ <;>
    · simp [Tracestate.try_new, contains_duplciate_key, contains_duplciate_key.go,
        btreeInsert, MAX_KEY_VALUE_PAIRS]
      decide

/-- **C3.** Duplicate registration is indeed a silent no-op, but
`unregister_exporter` is not: its filter keeps exactly the exporters that
*are* pointer-equal to the argument, so unregistering an exporter that is
not present empties the whole registry instead of leaving it unchanged
(registry `[1, 2]`, unregister `3` gives `[]`), and unregistering a present
one removes everything else (registry `[1, 2]`, unregister `2` gives
`[2]`). -/
theorem unregister_exporter_drops_other_exporters :
    register_exporter [1, 2] 1 = [1, 2] ∧
    unregister_exporter [1, 2] 3 = [] ∧
    unregister_exporter [1, 2] 2 = [2] := by
  refine ⟨by decide, by decide, by decide⟩

/-- The sampled bit of the parent context inside `SamplingParameters`, as
the sampler's decision closure reads it (`false` when there is no parent). -/
def parent_sampled (params : SamplingParameters) : Bool :=
  match params.parent_context with
  | some parent_context => parent_context.is_sampled
  | none => false

/-- Sampling parameters with no parent and the default (all-zero) trace
id. -/
def testSamplingParameters : SamplingParameters :=
  { parent_context := none, trace_id := TraceID.default, span_id := SpanID.default
    name := "foo", has_remote_parent := false }

/-- **C6.** For every fraction `0 ≤ p < 1`, `probability_sampler p` samples
when the parent context is present and sampled, and otherwise samples
exactly when the trace id's first 8 bytes, read as a big-endian unsigned
64-bit integer and shifted right by one, are strictly below
`⌊p * 2^63⌋`; consequently the decision is a function of the parent's
sampled bit and the trace id alone, so re-evaluating with the same trace id
always yields the same decision. -/
theorem probability_sampler_decision (p : ℚ) (hp0 : 0 ≤ p) (hp1 : p < 1)
    (params : SamplingParameters) :
    (probability_sampler p params).sample =
      (parent_sampled params ||
        decide (read_u64_be params.trace_id >>> 1 < (⌊p * 2 ^ 63⌋).toNat)) ∧
    ∀ params' : SamplingParameters, params'.trace_id = params.trace_id →
      parent_sampled params' = parent_sampled params →
      (probability_sampler p params').sample = (probability_sampler p params).sample := by
  have key : ∀ q : SamplingParameters, (probability_sampler p q).sample =
      (parent_sampled q ||
        decide (read_u64_be q.trace_id >>> 1 < (⌊p * 2 ^ 63⌋).toNat)) := by
    intro q
    rw [probability_sampler]
    simp only [if_neg (not_lt.mpr hp0), if_neg (not_le.mpr hp1)]
    rw [parent_sampled]
    cases hpc : q.parent_context with
    | none => simp
    | some pc => cases hsc : pc.is_sampled <;> simp [hsc]
  refine ⟨key params, ?_⟩
  intro params' h1 h2
  rw [key params', key params, h1, h2]

/-- Witness for C6: with `p = 1/2` the bound is `2^62`, and the all-zero
trace id (value `0` after the shift) is sampled. -/
theorem probability_sampler_decision_witness :
    (probability_sampler (1 / 2) testSamplingParameters).sample = true := by
  rw [(probability_sampler_decision (1 / 2) (by norm_num) (by norm_num)
    testSamplingParameters).1]
  have hfloor : (⌊(1 / 2 : ℚ) * 2 ^ 63⌋).toNat = 2 ^ 62 := by
    rw [show (1 / 2 : ℚ) * 2 ^ 63 = ((2 ^ 62 : ℤ) : ℚ) by norm_num]
    rw [Int.floor_intCast]
    rfl
  rw [hfloor]
  decide

/-- A concrete global configuration for witnesses: `never_sample` as default
sampler, all-zero generated ids. -/
def testConfig : Config :=
  { default_sampler := never_sample, new_trace_id := TraceID.default
    new_span_id := SpanID.default }

/-- **C7.** Starting a span with a local (non-remote) parent and no per-call
sampler override copies the parent's `TraceOptions` word — in particular its
sampled bit — into the child's context, and the sampler protocol is not
consulted: the result is identical whatever the configured default sampler
is, even one that would decide otherwise. -/
theorem local_child_inherits_parent_sampling
    (cfg : Config) (s1 s2 : Sampler) (now : Nat) (name : String)
    (parent : SpanContext) (o : StartOptions) (hsampler : o.sampler = none) :
    (start_span_internal cfg now name (some parent) false o).span_context.trace_options
        = parent.trace_options ∧
    (start_span_internal cfg now name (some parent) false o).span_context.is_sampled
        = parent.is_sampled ∧
    start_span_internal { cfg with default_sampler := s1 } now name (some parent) false o =
      start_span_internal { cfg with default_sampler := s2 } now name (some parent) false o := by
  have hctx : (start_span_internal cfg now name (some parent) false o).span_context =
      { parent with span_id := cfg.new_span_id } := by
    simp only [start_span_internal, hsampler, Option.isNone_some, Option.isSome_none,
      Bool.or_false, Bool.false_or, Bool.or_self, if_false, Bool.false_eq_true]
    split <;> rfl
  refine ⟨by rw [hctx], by rw [hctx]; rfl, ?_⟩
  simp only [start_span_internal, hsampler, Option.isNone_some, Option.isSome_none,
    Bool.or_false, Bool.false_or, Bool.or_self, if_false, Bool.false_eq_true]

/-- Witness for C7: a sampled parent (`testSpanContext`, options word 1)
under a `never_sample` default sampler still yields a sampled child, and
swapping the default sampler between `always_sample` and `never_sample`
changes nothing. -/
theorem local_child_inherits_parent_sampling_witness :
    (start_span_internal testConfig 0 "foo" (some testSpanContext) false
        { sampler := none, span_kind := .Unspecified }).span_context.trace_options
      = testSpanContext.trace_options ∧
    (start_span_internal testConfig 0 "foo" (some testSpanContext) false
        { sampler := none, span_kind := .Unspecified }).span_context.is_sampled
      = testSpanContext.is_sampled ∧
    start_span_internal { testConfig with default_sampler := always_sample } 0 "foo"
        (some testSpanContext) false { sampler := none, span_kind := .Unspecified } =
      start_span_internal { testConfig with default_sampler := never_sample } 0 "foo"
        (some testSpanContext) false { sampler := none, span_kind := .Unspecified } :=
  local_child_inherits_parent_sampling testConfig always_sample never_sample 0 "foo"
    testSpanContext { sampler := none, span_kind := .Unspecified } rfl

/-- **C9.** Ending a sampled, recording span is idempotent: the first `end`
appends exactly one `export_span` invocation per registered exporter (and at
most one span-store insertion), a second `end` — on the handle or any clone
sharing the `end_once` latch — changes nothing, and `end` on a non-recording
span does nothing at all. -/
theorem span_end_idempotent (span : Span) (w : EndWorld) (now now' : Nat) (d : SpanData)
    (hdata : span.data = some d) (hended : span.ended = false)
    (hsampled : span.span_context.is_sampled = true) :
    (Span.end (Span.end span w now).1 (Span.end span w now).2 now' = Span.end span w now) ∧
    ((Span.end span w now).2.exports =
        w.exports ++ w.exporters.map (fun e => (e, { d with end_time := some now }))) ∧
    ((Span.end span w now).2.store_inserts.length ≤ w.store_inserts.length + 1) ∧
    (∀ (span₂ : Span) (w₂ : EndWorld), span₂.data = none →
      Span.end span₂ w₂ now = (span₂, w₂)) := by
  have hfst : (Span.end span w now).1 = { span with ended := true } := by
    simp only [Span.end, hdata, hended]
    simp only [Option.isNone_some, Bool.false_eq_true, if_false]
    split_ifs <;> rfl
  refine ⟨?_, ?_, ?_, ?_⟩
  · rw [hfst, Span.end]
    rw [show ({ span with ended := true } : Span).data = some d from hdata]
    simp only [Option.isNone_some, Bool.false_eq_true, if_false, if_true]
    rw [← hdata, ← hfst]
  · simp only [Span.end, hdata, hended, hsampled]
    simp only [Option.isNone_some, Bool.false_eq_true, if_false, Bool.true_and]
    cases hexp : w.exporters with
    | nil =>
      cases hstore : span.span_store <;> simp [hstore, hexp]
    | cons e es =>
      cases hstore : span.span_store <;> simp [hstore, hexp]
  · simp only [Span.end, hdata, hended, hsampled]
    simp only [Option.isNone_some, Bool.false_eq_true, if_false, Bool.true_and]
    cases hexp : w.exporters with
    | nil =>
      cases hstore : span.span_store <;> simp [hstore, hexp]
    | cons e es =>
      cases hstore : span.span_store <;> simp [hstore, hexp]
  · intro span₂ w₂ h2
    simp [Span.end, h2]

/-- A sampled recording span for the C9 witness. -/
def testRecordingSpan : Span :=
  { data := some (testSpanData none), span_context := testSpanContext
    span_store := none, ended := false }

/-- A world with one registered exporter and empty histories. -/
def testEndWorld : EndWorld :=
  { exporters := [1], exports := [], store_inserts := [] }

/-- Witness for C9: the sampled recording test span, ended twice in a world
with one registered exporter. -/
theorem span_end_idempotent_witness :
    (Span.end (Span.end testRecordingSpan testEndWorld 5).1
        (Span.end testRecordingSpan testEndWorld 5).2 6 =
      Span.end testRecordingSpan testEndWorld 5) ∧
    ((Span.end testRecordingSpan testEndWorld 5).2.exports =
        testEndWorld.exports ++ testEndWorld.exporters.map
          (fun e => (e, { testSpanData none with end_time := some 5 }))) ∧
    ((Span.end testRecordingSpan testEndWorld 5).2.store_inserts.length ≤
        testEndWorld.store_inserts.length + 1) ∧
    (∀ (span₂ : Span) (w₂ : EndWorld), span₂.data = none →
      Span.end span₂ w₂ 5 = (span₂, w₂)) :=
  span_end_idempotent testRecordingSpan testEndWorld 5 6 (testSpanData none) rfl rfl rfl

end Opencensus
